import Mathlib

/-
Shallow embedding of comfyui-art-venture `modules/nodes.py`.
Images and masks are modelled as arrays of rational samples; a parameter
pipe is an insertion-ordered association list mirroring a Python dict
(stored `None` is `PValue.none`, an absent key is `Option.none`).
-/

namespace AVNodes

/-- An IMAGE tensor: (height, width, channels) of samples in [0,1]. -/
structure ImageT where
  height : Nat
  width : Nat
  channels : Nat
  pixel : Nat → Nat → Nat → ℚ

/-- A MASK tensor: (height, width) of samples in [0,1]. -/
structure MaskT where
  height : Nat
  width : Nat
  val : Nat → Nat → ℚ

/-- A value stored in a parameter pipe: Python `None`, a string, an image
or a mask. -/
inductive PValue where
  | none
  | str (s : String)
  | img (i : ImageT)
  | mask (m : MaskT)

/-- A parameter pipe: a Python dict from string keys to values, modelled
as an insertion-ordered association list. -/
abbrev Pipe := List (String × PValue)

/-- `d[k]` read: `some v` when the key is present, `Option.none` when absent. -/
def pipeGet (p : Pipe) (k : String) : Option PValue :=
  match p with
  | [] => Option.none
  | (k', v) :: rest => if k' = k then some v else pipeGet rest k

/-- `d.get(k, None)`: the stored value, or Python `None` when the key is absent. -/
def pipeGetD (p : Pipe) (k : String) : PValue :=
  (pipeGet p k).getD PValue.none

/-- `d[k] = v` write: replace in place when the key is present, append otherwise
(Python dict update semantics). -/
def pipeSet (p : Pipe) (k : String) (v : PValue) : Pipe :=
  match p with
  | [] => [(k, v)]
  | (k', v') :: rest => if k' = k then (k', v) :: rest else (k', v') :: pipeSet rest k v

theorem pipeGet_pipeSet (p : Pipe) (k k' : String) (v : PValue) :
    pipeGet (pipeSet p k v) k' = if k = k' then some v else pipeGet p k' := by
  induction p with
  | nil => simp [pipeSet, pipeGet]
  | cons hd tl ih =>
    obtain ⟨k₀, v₀⟩ := hd
    by_cases h₀ : k₀ = k
    · subst h₀
      by_cases h₁ : k₀ = k' <;> simp [pipeSet, pipeGet, h₁]
    · simp only [pipeSet, h₀, if_neg, pipeGet]
      by_cases h₁ : k₀ = k'
      · have hk : ¬ k = k' := fun h => h₀ (h₁.trans h.symm)
        simp [h₁, hk]
      · simp [h₁, ih]

/-- `AVCheckpointModelsToParametersPipe.checkpoint_models_to_parameter_pipe`:
writes the eight model-name keys into the pipe, mapping the sentinel string
`"None"` to Python `None`, then returns the pipe. -/
def checkpoint_models_to_parameter_pipe
    (ckpt_name : String) (pipe : Pipe)
    (secondary_ckpt_name vae_name upscaler_name secondary_upscaler_name
     lora_1_name lora_2_name lora_3_name : String) : Pipe :=
  let pipe := pipeSet pipe "ckpt_name"
    (if ckpt_name ≠ "None" then PValue.str ckpt_name else PValue.none)
  let pipe := pipeSet pipe "secondary_ckpt_name"
    (if secondary_ckpt_name ≠ "None" then PValue.str secondary_ckpt_name else PValue.none)
  let pipe := pipeSet pipe "vae_name"
    (if vae_name ≠ "None" then PValue.str vae_name else PValue.none)
  let pipe := pipeSet pipe "upscaler_name"
    (if upscaler_name ≠ "None" then PValue.str upscaler_name else PValue.none)
  let pipe := pipeSet pipe "secondary_upscaler_name"
    (if secondary_upscaler_name ≠ "None" then PValue.str secondary_upscaler_name else PValue.none)
  let pipe := pipeSet pipe "lora_1_name"
    (if lora_1_name ≠ "None" then PValue.str lora_1_name else PValue.none)
  let pipe := pipeSet pipe "lora_2_name"
    (if lora_2_name ≠ "None" then PValue.str lora_2_name else PValue.none)
  let pipe := pipeSet pipe "lora_3_name"
    (if lora_3_name ≠ "None" then PValue.str lora_3_name else PValue.none)
  pipe

/-- `AVPromptsToParametersPipe.prompt_to_parameter_pipe`: writes `positive`,
`negative`, `image`, `mask` into the pipe unconditionally and returns it. -/
def prompt_to_parameter_pipe (positive negative : String) (pipe : Pipe)
    (image : Option ImageT) (mask : Option MaskT) : Pipe :=
  let pipe := pipeSet pipe "positive" (PValue.str positive)
  let pipe := pipeSet pipe "negative" (PValue.str negative)
  let pipe := pipeSet pipe "image"
    (match image with | some i => PValue.img i | Option.none => PValue.none)
  let pipe := pipeSet pipe "mask"
    (match mask with | some m => PValue.mask m | Option.none => PValue.none)
  pipe

/-- `AVParametersPipeToCheckpointModels.parameter_pipe_to_checkpoint_models`:
reads the eight model-name keys with a `None` default and returns the pipe
plus the eight values. -/
def parameter_pipe_to_checkpoint_models (pipe : Pipe) :
    Pipe × PValue × PValue × PValue × PValue × PValue × PValue × PValue × PValue :=
  (pipe,
   pipeGetD pipe "ckpt_name",
   pipeGetD pipe "secondary_ckpt_name",
   pipeGetD pipe "vae_name",
   pipeGetD pipe "upscaler_name",
   pipeGetD pipe "secondary_upscaler_name",
   pipeGetD pipe "lora_1_name",
   pipeGetD pipe "lora_2_name",
   pipeGetD pipe "lora_3_name")

/-- `AVParametersPipeToPrompts.parameter_pipe_to_prompt`: reads `positive`,
`negative`, `image`, `mask` with a `None` default and returns the pipe plus
the four values. -/
def parameter_pipe_to_prompt (pipe : Pipe) :
    Pipe × PValue × PValue × PValue × PValue :=
  (pipe,
   pipeGetD pipe "positive",
   pipeGetD pipe "negative",
   pipeGetD pipe "image",
   pipeGetD pipe "mask")

/-- The keys written by `checkpoint_models_to_parameter_pipe`. -/
def ckptKeys : List String :=
  ["ckpt_name", "secondary_ckpt_name", "vae_name", "upscaler_name",
   "secondary_upscaler_name", "lora_1_name", "lora_2_name", "lora_3_name"]

/-- The keys written by `prompt_to_parameter_pipe`. -/
def promptKeys : List String := ["positive", "negative", "image", "mask"]

/-- C2: for each of the eight name fields, the pipe stores `None` under the
corresponding key when the argument equals the sentinel `"None"` and the
string itself otherwise; `ckpt_name` is written unconditionally, `None`
included. -/
theorem c2_checkpoint_sentinel_mapping (pipe : Pipe)
    (c s v u su l1 l2 l3 : String) :
    pipeGet (checkpoint_models_to_parameter_pipe c pipe s v u su l1 l2 l3) "ckpt_name"
      = some (if c ≠ "None" then PValue.str c else PValue.none) ∧
    pipeGet (checkpoint_models_to_parameter_pipe c pipe s v u su l1 l2 l3) "secondary_ckpt_name"
      = some (if s ≠ "None" then PValue.str s else PValue.none) ∧
    pipeGet (checkpoint_models_to_parameter_pipe c pipe s v u su l1 l2 l3) "vae_name"
      = some (if v ≠ "None" then PValue.str v else PValue.none) ∧
    pipeGet (checkpoint_models_to_parameter_pipe c pipe s v u su l1 l2 l3) "upscaler_name"
      = some (if u ≠ "None" then PValue.str u else PValue.none) ∧
    pipeGet (checkpoint_models_to_parameter_pipe c pipe s v u su l1 l2 l3) "secondary_upscaler_name"
      = some (if su ≠ "None" then PValue.str su else PValue.none) ∧
    pipeGet (checkpoint_models_to_parameter_pipe c pipe s v u su l1 l2 l3) "lora_1_name"
      = some (if l1 ≠ "None" then PValue.str l1 else PValue.none) ∧
    pipeGet (checkpoint_models_to_parameter_pipe c pipe s v u su l1 l2 l3) "lora_2_name"
      = some (if l2 ≠ "None" then PValue.str l2 else PValue.none) ∧
    pipeGet (checkpoint_models_to_parameter_pipe c pipe s v u su l1 l2 l3) "lora_3_name"
      = some (if l3 ≠ "None" then PValue.str l3 else PValue.none) := by
  simp [checkpoint_models_to_parameter_pipe, pipeGet_pipeSet]

/-- C3: each to-pipe operation leaves every key outside its own written key
set exactly as it was — the checkpoint operation preserves prompt keys and
any other unrelated key, and the prompt operation preserves checkpoint keys
and any other unrelated key: present keys keep their prior value and absent
keys stay absent. -/
theorem c3_to_pipe_frame (pipe : Pipe) (k : String)
    (c s v u su l1 l2 l3 pos neg : String)
    (img : Option ImageT) (msk : Option MaskT) :
    (k ∉ ckptKeys →
      pipeGet (checkpoint_models_to_parameter_pipe c pipe s v u su l1 l2 l3) k
        = pipeGet pipe k) ∧
    (k ∉ promptKeys →
      pipeGet (prompt_to_parameter_pipe pos neg pipe img msk) k = pipeGet pipe k) := by
  constructor
  · intro hck
    simp only [ckptKeys, List.mem_cons, List.not_mem_nil, or_false, not_or] at hck
    obtain ⟨h1, h2, h3, h4, h5, h6, h7, h8⟩ := hck
    simp [checkpoint_models_to_parameter_pipe, pipeGet_pipeSet,
      Ne.symm h1, Ne.symm h2, Ne.symm h3, Ne.symm h4,
      Ne.symm h5, Ne.symm h6, Ne.symm h7, Ne.symm h8]
  · intro hpr
    simp only [promptKeys, List.mem_cons, List.not_mem_nil, or_false, not_or] at hpr
    obtain ⟨g1, g2, g3, g4⟩ := hpr
    simp [prompt_to_parameter_pipe, pipeGet_pipeSet,
      Ne.symm g1, Ne.symm g2, Ne.symm g3, Ne.symm g4]

/-- C3 witness at the cross-operation keys: the checkpoint operation keeps a
pre-existing `positive` entry and the prompt operation keeps a pre-existing
`ckpt_name` entry, each alongside an unrelated `extra` key. -/
theorem c3_to_pipe_frame_witness :
    pipeGet (checkpoint_models_to_parameter_pipe "a.ckpt"
        [("positive", PValue.str "keptPos"), ("extra", PValue.str "keptX")]
        "None" "None" "None" "None" "None" "None" "None")
      "positive" = some (PValue.str "keptPos") ∧
    pipeGet (prompt_to_parameter_pipe "pos" "neg"
        [("ckpt_name", PValue.str "keptCkpt"), ("extra", PValue.str "keptX")]
        Option.none Option.none)
      "ckpt_name" = some (PValue.str "keptCkpt") ∧
    pipeGet (checkpoint_models_to_parameter_pipe "a.ckpt"
        [("positive", PValue.str "keptPos"), ("extra", PValue.str "keptX")]
        "None" "None" "None" "None" "None" "None" "None")
      "extra" = some (PValue.str "keptX") ∧
    pipeGet (prompt_to_parameter_pipe "pos" "neg"
        [("ckpt_name", PValue.str "keptCkpt"), ("extra", PValue.str "keptX")]
        Option.none Option.none)
      "extra" = some (PValue.str "keptX") := by
  have h₁ := c3_to_pipe_frame
    [("positive", PValue.str "keptPos"), ("extra", PValue.str "keptX")] "positive"
    "a.ckpt" "None" "None" "None" "None" "None" "None" "None" "pos" "neg"
    Option.none Option.none
  have h₂ := c3_to_pipe_frame
    [("ckpt_name", PValue.str "keptCkpt"), ("extra", PValue.str "keptX")] "ckpt_name"
    "a.ckpt" "None" "None" "None" "None" "None" "None" "None" "pos" "neg"
    Option.none Option.none
  have h₃ := c3_to_pipe_frame
    [("positive", PValue.str "keptPos"), ("extra", PValue.str "keptX")] "extra"
    "a.ckpt" "None" "None" "None" "None" "None" "None" "None" "pos" "neg"
    Option.none Option.none
  have h₄ := c3_to_pipe_frame
    [("ckpt_name", PValue.str "keptCkpt"), ("extra", PValue.str "keptX")] "extra"
    "a.ckpt" "None" "None" "None" "None" "None" "None" "None" "pos" "neg"
    Option.none Option.none
  exact ⟨(h₁.1 (by decide)).trans rfl, (h₂.2 (by decide)).trans rfl,
    (h₃.1 (by decide)).trans rfl, (h₄.2 (by decide)).trans rfl⟩

/-- C4: writing checkpoint names into a pipe and reading them back returns,
for each of the eight fields, the written string when it is not the sentinel
and Python `None` when it is; in particular `ckpt_name = "a.ckpt"` with
`vae_name = "None"` reads back as `"a.ckpt"` and `None`. -/
theorem c4_checkpoint_roundtrip (pipe : Pipe) (c s v u su l1 l2 l3 : String) :
    parameter_pipe_to_checkpoint_models
        (checkpoint_models_to_parameter_pipe c pipe s v u su l1 l2 l3)
      = (checkpoint_models_to_parameter_pipe c pipe s v u su l1 l2 l3,
         (if c ≠ "None" then PValue.str c else PValue.none),
         (if s ≠ "None" then PValue.str s else PValue.none),
         (if v ≠ "None" then PValue.str v else PValue.none),
         (if u ≠ "None" then PValue.str u else PValue.none),
         (if su ≠ "None" then PValue.str su else PValue.none),
         (if l1 ≠ "None" then PValue.str l1 else PValue.none),
         (if l2 ≠ "None" then PValue.str l2 else PValue.none),
         (if l3 ≠ "None" then PValue.str l3 else PValue.none)) ∧
    (parameter_pipe_to_checkpoint_models
        (checkpoint_models_to_parameter_pipe "a.ckpt" pipe "None" "None" "None"
          "None" "None" "None" "None")).2.1 = PValue.str "a.ckpt" ∧
    (parameter_pipe_to_checkpoint_models
        (checkpoint_models_to_parameter_pipe "a.ckpt" pipe "None" "None" "None"
          "None" "None" "None" "None")).2.2.2.1 = PValue.none := by
  refine ⟨?_, ?_, ?_⟩ <;>
    simp [parameter_pipe_to_checkpoint_models, pipeGetD,
      checkpoint_models_to_parameter_pipe, pipeGet_pipeSet]

/-- C5: writing prompts into a pipe stores all four keys unconditionally
(`None` for an unsupplied image or mask) and reading them back returns the
written positive, negative, image and mask; in particular `("pos", "neg")`
with no image or mask reads back as `"pos"`, `"neg"`, `None`, `None`. -/
theorem c5_prompt_roundtrip (pipe : Pipe) (pos neg : String)
    (img : Option ImageT) (msk : Option MaskT) :
    parameter_pipe_to_prompt (prompt_to_parameter_pipe pos neg pipe img msk)
      = (prompt_to_parameter_pipe pos neg pipe img msk,
         PValue.str pos,
         PValue.str neg,
         (match img with | some i => PValue.img i | Option.none => PValue.none),
         (match msk with | some m => PValue.mask m | Option.none => PValue.none)) ∧
    parameter_pipe_to_prompt
        (prompt_to_parameter_pipe "pos" "neg" pipe Option.none Option.none)
      = (prompt_to_parameter_pipe "pos" "neg" pipe Option.none Option.none,
         PValue.str "pos", PValue.str "neg", PValue.none, PValue.none) := by
  constructor <;>
    simp [parameter_pipe_to_prompt, pipeGetD,
      prompt_to_parameter_pipe, pipeGet_pipeSet]

/-- C9: both from-pipe operations return the pipe itself, unchanged, as the
first element of their result tuple: no key is added, removed or changed. -/
theorem c9_from_pipe_pure (pipe : Pipe) :
    (parameter_pipe_to_checkpoint_models pipe).1 = pipe ∧
    (parameter_pipe_to_prompt pipe).1 = pipe :=
  ⟨rfl, rfl⟩

/-- The error raised by Python when a list subscript is out of range. -/
inductive MuxError where
  | indexOutOfRange
deriving DecidableEq

/-- Python list subscript `xs[i]`: a negative index counts from the end;
an index outside `[-len, len)` raises IndexError. -/
def pyIndex {α : Type} (xs : List α) (i : Int) : Except MuxError α :=
  let j := if i < 0 then i + xs.length else i
  if h : 0 ≤ j ∧ j < xs.length then
    Except.ok (xs.get ⟨j.toNat, by omega⟩)
  else
    Except.error MuxError.indexOutOfRange

/-- `UtilImageMuxer.image_muxer`: collects the four image arguments
(optional ones default to Python `None`) into a list and subscripts it with
the selector. -/
def image_muxer (image_1 image_2 : ImageT) (input_selector : Int)
    (image_3 image_4 : Option ImageT) : Except MuxError (Option ImageT) :=
  let images : List (Option ImageT) := [some image_1, some image_2, image_3, image_4]
  pyIndex images input_selector

/-- A concrete 1×1 RGB image used for counterexamples and witnesses. -/
def demoImage (shade : ℚ) : ImageT := ⟨1, 1, 3, fun _ _ _ => shade⟩

/-- C1 counterexample: selector `-1` addresses none of the four slots
(slot indices are 0..3), yet the code returns `image_4` successfully rather
than failing with IndexOutOfRange. -/
theorem c1_mux_counterexample :
    ((-1 : Int) < 0 ∨ 3 < (-1 : Int)) ∧
    image_muxer (demoImage 0) (demoImage 1) (-1)
        (some (demoImage 2)) (some (demoImage 3))
      = Except.ok (some (demoImage 3)) :=
  ⟨Or.inl (by decide), rfl⟩

/-- C1 amended: the selector follows Python list indexing. Selectors 0..3
return the (possibly `None`) element at that slot; selectors -4..-1 return
the element at slot `selector + 4`; the call fails with IndexOutOfRange
exactly when the selector is outside `[-4, 3]`. -/
theorem c1_mux_amended (i1 i2 : ImageT) (i3 i4 : Option ImageT) (s : Int) :
    (image_muxer i1 i2 s i3 i4 = Except.error MuxError.indexOutOfRange ↔
      (s < -4 ∨ 3 < s)) ∧
    (0 ≤ s → s ≤ 3 →
      image_muxer i1 i2 s i3 i4 =
        Except.ok ([some i1, some i2, i3, i4].getD s.toNat Option.none)) ∧
    (-4 ≤ s → s < 0 →
      image_muxer i1 i2 s i3 i4 =
        Except.ok ([some i1, some i2, i3, i4].getD (s + 4).toNat Option.none)) := by
  refine ⟨?_, ?_, ?_⟩
  · unfold image_muxer pyIndex
    by_cases hneg : s < 0 <;> simp only [hneg, if_pos, if_neg, List.length_cons,
      List.length_nil, Nat.cast_ofNat, ite_true, ite_false] <;>
      split <;> rename_i h <;> simp <;> omega
  · intro h0 h3
    interval_cases s <;> rfl
  · intro h4 h0
    interval_cases s <;> rfl

/-- C1 amended, witnessed: selector 0 returns `image_1`, selector 3 with
`image_4` unset returns `None`, and selector -1 returns the last slot. -/
theorem c1_mux_amended_witness :
    image_muxer (demoImage 0) (demoImage 1) 0 Option.none Option.none
      = Except.ok (some (demoImage 0)) ∧
    image_muxer (demoImage 0) (demoImage 1) 3 Option.none Option.none
      = Except.ok Option.none ∧
    image_muxer (demoImage 0) (demoImage 1) (-1) Option.none (some (demoImage 2))
      = Except.ok (some (demoImage 2)) :=
  ⟨(c1_mux_amended (demoImage 0) (demoImage 1) Option.none Option.none 0).2.1
      (by decide) (by decide),
   (c1_mux_amended (demoImage 0) (demoImage 1) Option.none Option.none 3).2.1
      (by decide) (by decide),
   (c1_mux_amended (demoImage 0) (demoImage 1) Option.none (some (demoImage 2)) (-1)).2.2
      (by decide) (by decide)⟩

/-- The error `UtilLoadImageFromUrl` raises on a non-200 HTTP status,
carrying the response text. -/
inductive FetchError where
  | remoteFetch (text : String)
deriving DecidableEq

/-- An HTTP GET request as issued by the loader: the URL and the timeout
in seconds. -/
structure HttpRequest where
  url : String
  timeout : Nat
deriving DecidableEq

/-- The response the single HTTP GET would produce. -/
structure HttpResponse where
  status : Nat
  content : List Nat
  text : String

/-- Where the loader obtained the raw image bytes: the base64 payload of a
data URI, or the body of an HTTP response. -/
inductive ImageBytesSource where
  | fromDataUri (payload : String)
  | fromHttp (content : List Nat)
deriving DecidableEq

/-- Python `s.startswith(p)`: `p`'s characters are a prefix of `s`'s. -/
def pyStartsWith (s p : String) : Bool :=
  p.data.isPrefixOf s.data

/-- The fetch stage of `UtilLoadImageFromUrl.load_image_from_url`: a
`data:image/...` URL is decoded locally from its base64 payload; any other
URL triggers one GET with a 5-second timeout, raising when the status is
not 200. The first component records every network request performed. -/
def load_image_fetch (url : String) (resp : HttpResponse) :
    List HttpRequest × Except FetchError ImageBytesSource :=
  if pyStartsWith url "data:image/" then
    ([], Except.ok (ImageBytesSource.fromDataUri ((url.splitOn ",").getD 1 "")))
  else
    ([⟨url, 5⟩],
     if resp.status ≠ 200 then Except.error (FetchError.remoteFetch resp.text)
     else Except.ok (ImageBytesSource.fromHttp resp.content))

/-- Modelled from the spec: the class of success HTTP statuses
("RemoteFetchError (network/non-2xx on GET)" reads success as the 2xx
family). Used only to compare the spec's wording with the code. -/
def spec_isSuccessStatus (status : Nat) : Bool :=
  200 ≤ status ∧ status < 300

/-- C8 counterexample: status 204 is a success status (2xx), yet the code
raises RemoteFetchError for it, because it tests `status != 200`. -/
theorem c8_fetch_counterexample :
    spec_isSuccessStatus 204 = true ∧
    (load_image_fetch "http://example.com/a.png" ⟨204, [], "No Content"⟩).2
      = Except.error (FetchError.remoteFetch "No Content") :=
  ⟨by decide, rfl⟩

/-- C8 amended: for every non-data-URI URL the loader performs exactly one
HTTP GET with a 5-second timeout and fails with RemoteFetchError exactly
when the response status differs from 200 (200 being the only status it
accepts, so non-200 success statuses also fail); the data-URI path performs
no network call and never raises RemoteFetchError. -/
theorem c8_fetch_amended (url : String) (resp : HttpResponse) :
    (pyStartsWith url "data:image/" = false →
      (load_image_fetch url resp).1 = [⟨url, 5⟩] ∧
      ((load_image_fetch url resp).2
          = Except.error (FetchError.remoteFetch resp.text) ↔ resp.status ≠ 200)) ∧
    (pyStartsWith url "data:image/" = true →
      (load_image_fetch url resp).1 = [] ∧
      ∀ t, (load_image_fetch url resp).2 ≠ Except.error (FetchError.remoteFetch t)) := by
  constructor
  · intro h
    refine ⟨by simp [load_image_fetch, h], ?_⟩
    by_cases hs : resp.status = 200 <;> simp [load_image_fetch, h, hs]
  · intro h
    exact ⟨by simp [load_image_fetch, h], fun t => by simp [load_image_fetch, h]⟩

/-- C8 amended, witnessed: a plain URL with status 500 performs one GET and
fails; one with status 200 succeeds implicitly (the failure is equivalent to
non-200); a data URI performs no request. -/
theorem c8_fetch_amended_witness :
    ((load_image_fetch "http://example.com/a.png" ⟨500, [], "boom"⟩).1
        = [⟨"http://example.com/a.png", 5⟩] ∧
      ((load_image_fetch "http://example.com/a.png" ⟨500, [], "boom"⟩).2
          = Except.error (FetchError.remoteFetch "boom") ↔ (500 : Nat) ≠ 200)) ∧
    ((load_image_fetch "data:image/png;base64,AAAA" ⟨500, [], "boom"⟩).1 = [] ∧
      ∀ t, (load_image_fetch "data:image/png;base64,AAAA" ⟨500, [], "boom"⟩).2
          ≠ Except.error (FetchError.remoteFetch t)) :=
  ⟨(c8_fetch_amended "http://example.com/a.png" ⟨500, [], "boom"⟩).1 (by decide),
   (c8_fetch_amended "data:image/png;base64,AAAA" ⟨500, [], "boom"⟩).2 (by decide)⟩

/-- A decoded source image as seen by the mask derivation: its size, its
band names (as returned by `getbands()`), and its alpha channel as byte
samples, meaningful when the `"A"` band is present. -/
structure SrcImage where
  height : Nat
  width : Nat
  bands : List String
  alphaByte : Nat → Nat → Nat

/-- The mask derivation of `UtilLoadImageFromUrl.load_image_from_url`: when
the image has an `"A"` band the mask is one minus the alpha channel
normalized to [0,1]; otherwise it is a 64×64 zero array. -/
def load_image_mask (src : SrcImage) : MaskT :=
  if "A" ∈ src.bands then
    ⟨src.height, src.width, fun r c => 1 - (src.alphaByte r c : ℚ) / 255⟩
  else
    ⟨64, 64, fun _ _ => 0⟩

/-- C7: without an alpha band the mask is a 64×64 all-zero array; with one it
equals one minus the normalized alpha, so alpha identically 255 (1.0) gives
an all-zero mask and alpha identically 0 (0.0) gives an all-one mask. -/
theorem c7_mask_derivation (src : SrcImage) :
    ("A" ∉ src.bands →
      (load_image_mask src).height = 64 ∧ (load_image_mask src).width = 64 ∧
      ∀ r c, (load_image_mask src).val r c = 0) ∧
    ("A" ∈ src.bands →
      (∀ r c, (load_image_mask src).val r c = 1 - (src.alphaByte r c : ℚ) / 255) ∧
      ((∀ r c, src.alphaByte r c = 255) → ∀ r c, (load_image_mask src).val r c = 0) ∧
      ((∀ r c, src.alphaByte r c = 0) → ∀ r c, (load_image_mask src).val r c = 1)) := by
  constructor
  · intro h
    refine ⟨by simp [load_image_mask, h], by simp [load_image_mask, h],
      fun r c => by simp [load_image_mask, h]⟩
  · intro h
    refine ⟨fun r c => by simp [load_image_mask, h], ?_, ?_⟩
    · intro ha r c
      norm_num [load_image_mask, h, ha r c]
    · intro ha r c
      norm_num [load_image_mask, h, ha r c]

/-- C7 witness at concrete images: an RGB image yields a zero mask sample,
an RGBA image with alpha 255 yields 0 and with alpha 0 yields 1. -/
theorem c7_mask_derivation_witness :
    (load_image_mask ⟨2, 3, ["R", "G", "B"], fun _ _ => 7⟩).val 0 0 = 0 ∧
    (load_image_mask ⟨2, 3, ["R", "G", "B", "A"], fun _ _ => 255⟩).val 1 2 = 0 ∧
    (load_image_mask ⟨2, 3, ["R", "G", "B", "A"], fun _ _ => 0⟩).val 0 1 = 1 :=
  ⟨((c7_mask_derivation ⟨2, 3, ["R", "G", "B"], fun _ _ => 7⟩).1 (by decide)).2.2 0 0,
   (((c7_mask_derivation ⟨2, 3, ["R", "G", "B", "A"], fun _ _ => 255⟩).2
      (by decide)).2.1 (fun _ _ => rfl)) 1 2,
   (((c7_mask_derivation ⟨2, 3, ["R", "G", "B", "A"], fun _ _ => 0⟩).2
      (by decide)).2.2 (fun _ _ => rfl)) 0 1⟩

/-- One file entry of the multipart upload: the form field name, the
filename, the image whose PNG encoding is the payload (the encoding itself
is delegated to the imaging library), and the mime type. -/
structure FileEntry where
  formField : String
  filename : String
  payload : ImageT
  mime : String

/-- The file-building loop of `AVOutputUploadImage.upload_images`: one
`("files", (f"image-{idx}.png", bytes, "image/png"))` entry per image, with
`idx` counting from the given start. -/
def buildFiles (images : List ImageT) (idx : Nat) : List FileEntry :=
  match images with
  | [] => []
  | image :: rest =>
    ⟨"files", "image-" ++ toString idx ++ ".png", image, "image/png"⟩
      :: buildFiles rest (idx + 1)

/-- Lookup in the additional-data form-field mapping. -/
def fieldsGet (fields : List (String × String)) (k : String) : Option String :=
  match fields with
  | [] => Option.none
  | (k', v) :: rest => if k' = k then some v else fieldsGet rest k

/-- `AVOutputUploadImage.upload_images`, up to the remote POST: the file
entries built from the images, and the additional form data, which always
holds `success="true"` and holds `folderId` exactly when a folder id is
supplied. -/
def upload_images (images : List ImageT) (folder_id : Option String) :
    List FileEntry × List (String × String) :=
  (buildFiles images 0,
   ("success", "true") ::
     (match folder_id with | some f => [("folderId", f)] | Option.none => []))

theorem buildFiles_length (images : List ImageT) (idx : Nat) :
    (buildFiles images idx).length = images.length := by
  induction images generalizing idx with
  | nil => rfl
  | cons hd tl ih => simp [buildFiles, ih]

theorem buildFiles_get (images : List ImageT) (idx : Nat)
    (i : Fin (buildFiles images idx).length) :
    ((buildFiles images idx).get i).formField = "files" ∧
    ((buildFiles images idx).get i).filename
      = "image-" ++ toString (idx + i.val) ++ ".png" ∧
    ((buildFiles images idx).get i).mime = "image/png" := by
  induction images generalizing idx with
  | nil => exact absurd i.isLt (by simp [buildFiles])
  | cons hd tl ih =>
    match i with
    | ⟨0, h⟩ => exact ⟨rfl, rfl, rfl⟩
    | ⟨j + 1, h⟩ =>
      have hj : j < (buildFiles tl (idx + 1)).length := by
        simpa [buildFiles] using h
      have := ih (idx + 1) ⟨j, hj⟩
      have harith : idx + 1 + j = idx + (j + 1) := by omega
      simpa [buildFiles, List.get, harith] using this

/-- C6: uploading `n` images builds exactly `n` file entries, the i-th named
`image-i.png` with form field `files` and mime `image/png`; the additional
fields always hold `success="true"` and hold `folderId` exactly when a
folder id is supplied (equal to it), never otherwise. -/
theorem c6_upload_batch (images : List ImageT) (folder_id : Option String) :
    (upload_images images folder_id).1.length = images.length ∧
    (∀ i : Fin (upload_images images folder_id).1.length,
      ((upload_images images folder_id).1.get i).formField = "files" ∧
      ((upload_images images folder_id).1.get i).filename
        = "image-" ++ toString i.val ++ ".png" ∧
      ((upload_images images folder_id).1.get i).mime = "image/png") ∧
    fieldsGet (upload_images images folder_id).2 "success" = some "true" ∧
    fieldsGet (upload_images images folder_id).2 "folderId" = folder_id := by
  refine ⟨buildFiles_length images 0, ?_, ?_, ?_⟩
  · intro i
    simpa using buildFiles_get images 0 i
  · rfl
  · cases folder_id <;> simp [upload_images, fieldsGet]

/-- A heap of pipe objects, giving the Python dicts reference identity:
a pipe reference is an index into the heap. -/
structure PipeHeap where
  cells : List Pipe

/-- Dereference a pipe. -/
def heapGet (h : PipeHeap) (a : Nat) : Pipe := h.cells.getD a []

/-- Overwrite the pipe a reference points at (in-place dict mutation). -/
def heapSet (h : PipeHeap) (a : Nat) (p : Pipe) : PipeHeap := ⟨h.cells.set a p⟩

/-- The state of the loaded nodes module: the heap, plus the address of the
`pipe: Dict = {}` default-argument object of each to-pipe method — Python
evaluates a default argument once, at function definition, so every call
that omits `pipe` shares that one dict. -/
structure NodesState where
  heap : PipeHeap
  ckptDefaultAddr : Nat
  promptDefaultAddr : Nat

/-- A call to `checkpoint_models_to_parameter_pipe` with reference-passing
semantics: the omitted `pipe` argument aliases the shared default dict, the
dict at the resolved address is mutated in place, and its address is
returned. -/
def checkpoint_models_to_parameter_pipe_call (st : NodesState)
    (ckpt_name : String) (pipeArg : Option Nat)
    (secondary_ckpt_name vae_name upscaler_name secondary_upscaler_name
     lora_1_name lora_2_name lora_3_name : String) : NodesState × Nat :=
  let addr := pipeArg.getD st.ckptDefaultAddr
  let q := checkpoint_models_to_parameter_pipe ckpt_name (heapGet st.heap addr)
    secondary_ckpt_name vae_name upscaler_name secondary_upscaler_name
    lora_1_name lora_2_name lora_3_name
  (⟨heapSet st.heap addr q, st.ckptDefaultAddr, st.promptDefaultAddr⟩, addr)

/-- A call to `prompt_to_parameter_pipe` with reference-passing semantics,
sharing that method's own default dict when `pipe` is omitted. -/
def prompt_to_parameter_pipe_call (st : NodesState) (positive negative : String)
    (pipeArg : Option Nat) (image : Option ImageT) (mask : Option MaskT) :
    NodesState × Nat :=
  let addr := pipeArg.getD st.promptDefaultAddr
  let q := prompt_to_parameter_pipe positive negative (heapGet st.heap addr) image mask
  (⟨heapSet st.heap addr q, st.ckptDefaultAddr, st.promptDefaultAddr⟩, addr)

theorem heapGet_heapSet_self (h : PipeHeap) (a : Nat) (p : Pipe)
    (ha : a < h.cells.length) : heapGet (heapSet h a p) a = p := by
  simp [heapGet, heapSet, List.getD_eq_getElem?_getD, List.getElem?_set_self, ha]

/-- C10: two successive no-pipe calls to a to-pipe operation return the same
address — the operation's shared default dict — and after the second call
the pipe the first call returned holds the second call's values; this holds
for the checkpoint operation and for the prompt operation. -/
theorem c10_default_pipe_shared (st : NodesState)
    (hc : st.ckptDefaultAddr < st.heap.cells.length)
    (hp : st.promptDefaultAddr < st.heap.cells.length)
    (c₁ s₁ v₁ u₁ su₁ x₁ y₁ z₁ c₂ s₂ v₂ u₂ su₂ x₂ y₂ z₂ p₁ n₁ p₂ n₂ : String) :
    (checkpoint_models_to_parameter_pipe_call st c₁ Option.none
        s₁ v₁ u₁ su₁ x₁ y₁ z₁).2 = st.ckptDefaultAddr ∧
    (checkpoint_models_to_parameter_pipe_call
        (checkpoint_models_to_parameter_pipe_call st c₁ Option.none
          s₁ v₁ u₁ su₁ x₁ y₁ z₁).1
        c₂ Option.none s₂ v₂ u₂ su₂ x₂ y₂ z₂).2 = st.ckptDefaultAddr ∧
    pipeGet (heapGet
        (checkpoint_models_to_parameter_pipe_call
          (checkpoint_models_to_parameter_pipe_call st c₁ Option.none
            s₁ v₁ u₁ su₁ x₁ y₁ z₁).1
          c₂ Option.none s₂ v₂ u₂ su₂ x₂ y₂ z₂).1.heap
        (checkpoint_models_to_parameter_pipe_call st c₁ Option.none
          s₁ v₁ u₁ su₁ x₁ y₁ z₁).2)
      "ckpt_name" = some (if c₂ ≠ "None" then PValue.str c₂ else PValue.none) ∧
    (prompt_to_parameter_pipe_call st p₁ n₁ Option.none Option.none Option.none).2
      = st.promptDefaultAddr ∧
    (prompt_to_parameter_pipe_call
        (prompt_to_parameter_pipe_call st p₁ n₁ Option.none Option.none Option.none).1
        p₂ n₂ Option.none Option.none Option.none).2 = st.promptDefaultAddr ∧
    pipeGet (heapGet
        (prompt_to_parameter_pipe_call
          (prompt_to_parameter_pipe_call st p₁ n₁ Option.none Option.none Option.none).1
          p₂ n₂ Option.none Option.none Option.none).1.heap
        (prompt_to_parameter_pipe_call st p₁ n₁ Option.none Option.none Option.none).2)
      "positive" = some (PValue.str p₂) := by
  refine ⟨rfl, rfl, ?_, rfl, rfl, ?_⟩
  · simp only [checkpoint_models_to_parameter_pipe_call, Option.getD_none]
    rw [heapGet_heapSet_self]
    · simp [checkpoint_models_to_parameter_pipe, pipeGet_pipeSet]
    · simp only [heapSet, List.length_set]
      exact hc
  · simp only [prompt_to_parameter_pipe_call, Option.getD_none]
    rw [heapGet_heapSet_self]
    · simp [prompt_to_parameter_pipe, pipeGet_pipeSet]
    · simp only [heapSet, List.length_set]
      exact hp

/-- C10 witness: starting from the module state with both fresh default
dicts, two no-pipe checkpoint calls write `"a.ckpt"` then `"b.ckpt"`, and
the pipe returned by the first call now reads back the second value. -/
theorem c10_default_pipe_shared_witness :
    pipeGet (heapGet
        (checkpoint_models_to_parameter_pipe_call
          (checkpoint_models_to_parameter_pipe_call ⟨⟨[[], []]⟩, 0, 1⟩ "a.ckpt" Option.none
            "None" "None" "None" "None" "None" "None" "None").1
          "b.ckpt" Option.none "None" "None" "None" "None" "None" "None" "None").1.heap
        (checkpoint_models_to_parameter_pipe_call ⟨⟨[[], []]⟩, 0, 1⟩ "a.ckpt" Option.none
          "None" "None" "None" "None" "None" "None" "None").2)
      "ckpt_name" = some (PValue.str "b.ckpt") :=
  (c10_default_pipe_shared ⟨⟨[[], []]⟩, 0, 1⟩ (by decide) (by decide)
    "a.ckpt" "None" "None" "None" "None" "None" "None" "None"
    "b.ckpt" "None" "None" "None" "None" "None" "None" "None"
    "posA" "negA" "posB" "negB").2.2.1

end AVNodes
